import Mathlib

/-!
Verification development for the DanData TaskMaster repository.

The definitions below are a shallow embedding of the scheduling core in
`task_manager.py` and of the manual-invocation endpoint in
`task_web_interface.py`.  Time is modelled as `Nat` (seconds for the health
monitor, minutes since a Monday 00:00 for trigger next-fire computation),
Python exceptions as explicit environment parameters (`Option String` /
`ProbeResult`), and the per-call interleaving of the scheduler's executor
with the web endpoint as traces of events over an explicit state.
-/

namespace DanData

/-- The `TaskStatus` enum of `task_manager.py`. -/
inductive TaskStatus where
  | pending
  | running
  | completed
  | failed
  | cancelled
deriving DecidableEq, Repr

/-- The `TaskResult` dataclass of `task_manager.py` (fields used by status
queries; `started_at`/`completed_at`/`result` carry no weight in any claim). -/
structure TaskResult where
  taskId : String
  status : TaskStatus
  error : Option String
deriving DecidableEq, Repr

/-- One alert emitted through `_send_alert`: its `type` tag and human
message (the `data` payload is opaque to every claim about alert identity). -/
structure AlertEvent where
  alertType : String
  message : String
deriving DecidableEq, Repr

/-- The mutable fields of `DanDataTaskManager` touched by the task bodies:
`last_health_check` (`None` initially), `health_status` (`"unknown"`
initially) and the `tasks` dictionary (empty initially). -/
structure MgrState where
  lastHealthCheck : Option Nat
  healthStatus : String
  tasks : List (String × TaskResult)
deriving DecidableEq, Repr

/-- The state built by `DanDataTaskManager.__init__`. -/
def dmInit : MgrState := ⟨none, "unknown", []⟩

/-- Outcome of the health probe `requests.get(f"{url}/health", timeout=10)`:
HTTP 200 with an optional `status` field in the JSON body, a non-200 HTTP
status, or a raised exception with its message. -/
inductive ProbeResult where
  | ok (statusField : Option String)
  | httpError (code : Nat)
  | exn (msg : String)
deriving DecidableEq, Repr

/-- `_health_check_task`: on HTTP 200 set `health_status` from the body
(default `"unknown"`) and `last_health_check = now`, alerting
`health_degraded` when degraded/unhealthy; a non-200 status raises
`Exception(f"Health check failed: HTTP {code}")`, and that raise or any
other exception is caught by the task's own `except`, which sets
`health_status = "unhealthy"` and sends one `health_check_failed` alert
with the exception's message.  Returns the new state and the alerts sent. -/
def healthCheckTask (now : Nat) (probe : ProbeResult) (s : MgrState) :
    MgrState × List AlertEvent :=
  match probe with
  | .ok statusField =>
      let hs := statusField.getD "unknown"
      ({ s with healthStatus := hs, lastHealthCheck := some now },
       if hs = "degraded" ∨ hs = "unhealthy" then
         [⟨"health_degraded", "System health is " ++ hs⟩]
       else [])
  | .httpError code =>
      ({ s with healthStatus := "unhealthy" },
       [⟨"health_check_failed", "Health check failed: HTTP " ++ toString code⟩])
  | .exn msg =>
      ({ s with healthStatus := "unhealthy" },
       [⟨"health_check_failed", msg⟩])

/-- `_database_cleanup_task`: the body only logs simulated cleanup actions;
an exception raised in the body (`err = some e`) is caught and produces one
`db_cleanup_failed` alert.  No manager state is written on either path. -/
def databaseCleanupTask (err : Option String) (s : MgrState) :
    MgrState × List AlertEvent :=
  match err with
  | none => (s, [])
  | some e => (s, [⟨"db_cleanup_failed", e⟩])

/-- `_backup_verification_task`: the body only logs simulated verification
results; an exception in the body produces one `backup_verification_failed`
alert.  No manager state is written. -/
def backupVerificationTask (err : Option String) (s : MgrState) :
    MgrState × List AlertEvent :=
  match err with
  | none => (s, [])
  | some e => (s, [⟨"backup_verification_failed", e⟩])

/-- Python string `<`/`>` on the two hard-coded metric strings: strict
lexicographic comparison of code points, as in CPython's `str.__lt__`. -/
def pyStrLtChars : List Char → List Char → Bool
  | [], [] => false
  | [], _ :: _ => true
  | _ :: _, [] => false
  | a :: as, b :: bs =>
      if a.val < b.val then true
      else if b.val < a.val then false
      else pyStrLtChars as bs

/-- Python `a > b` on strings. -/
def pyStrGt (a b : String) : Bool := pyStrLtChars b.data a.data

/-- Python `s.rstrip('%')`: drop every trailing `'%'`. -/
def rstripPercentAux : List Char → List Char
  | '%' :: cs => rstripPercentAux cs
  | cs => cs

/-- Python `s.rstrip('%')`. -/
def rstripPercent (s : String) : String :=
  ⟨(rstripPercentAux s.data.reverse).reverse⟩

/-- Digits of a decimal literal to a natural number. -/
def digitsToNat (cs : List Char) : Nat :=
  cs.foldl (fun acc c => acc * 10 + (c.toNat - 48)) 0

/-- Split a decimal literal at its first `'.'`. -/
def splitAtDot : List Char → List Char × Option (List Char)
  | [] => ([], none)
  | '.' :: cs => ([], some cs)
  | c :: cs =>
      let r := splitAtDot cs
      (c :: r.1, r.2)

/-- Python `float(s)` for the non-negative decimal literals appearing in the
source, as an exact fraction `numerator / denominator` (the only use is a
comparison against `1.0`, where the exact decimal value and the IEEE value
order identically). -/
def parseDecimal (s : String) : Nat × Nat :=
  match splitAtDot s.data with
  | (i, none) => (digitsToNat i, 1)
  | (i, some f) => (digitsToNat i * 10 ^ f.length + digitsToNat f,
                    10 ^ f.length)

/-- Python `float(s) > 1.0` for such literals. -/
def decGtOne (s : String) : Bool :=
  let p := parseDecimal s
  decide (p.2 < p.1)

/-- `_get_api_metrics()["95th_percentile"]`, hard-coded in the source. -/
def apiMetrics95th : String := "450ms"

/-- `_get_api_metrics()["error_rate"]`, hard-coded in the source. -/
def apiMetricsErrorRate : String := "0.2%"

/-- `_analyze_performance_trends`: collect issues (the 95th-percentile
check is a Python *string* comparison against `"1000ms"`; the error-rate
check parses the percentage) and send one `performance_degradation` alert
joining them with `"; "` when any issue was found. -/
def analyzePerformanceTrends (p95 errRate : String) : List AlertEvent :=
  let issues :=
    (if pyStrGt p95 "1000ms" then ["API response times degraded"] else [])
      ++ (if decGtOne (rstripPercent errRate) then ["Error rate elevated"] else [])
  if issues = [] then [] else
    [⟨"performance_degradation", String.intercalate "; " issues⟩]

/-- `_performance_analytics_task`: gather the hard-coded metrics and run
trend analysis; an exception in the body yields one
`performance_analytics_failed` alert.  No manager state is written. -/
def performanceAnalyticsTask (err : Option String) (s : MgrState) :
    MgrState × List AlertEvent :=
  match err with
  | none => (s, analyzePerformanceTrends apiMetrics95th apiMetricsErrorRate)
  | some e => (s, [⟨"performance_analytics_failed", e⟩])

/-- `cost_data["supabase_usage"]["estimated_cost"]` in cents (15.50). -/
def supabaseEstimatedCostCents : Nat := 1550

/-- `cost_data["vercel_usage"]["estimated_cost"]` in cents (8.25). -/
def vercelEstimatedCostCents : Nat := 825

/-- The `total_cost > 20` budget threshold, in cents. -/
def monthlyCostThresholdCents : Nat := 2000

/-- `total_cost` in `_cost_monitoring_task`, in cents. -/
def totalCostCents : Nat := supabaseEstimatedCostCents + vercelEstimatedCostCents

/-- Python `f"{c/100:.2f}"` for an exact cents amount. -/
def formatCents (c : Nat) : String :=
  toString (c / 100) ++ "." ++ (if c % 100 < 10 then "0" else "")
    ++ toString (c % 100)

/-- `_cost_monitoring_task`: sum the hard-coded estimated costs and send one
`cost_threshold_warning` alert when the total exceeds the $20 threshold; an
exception in the body yields one `cost_monitoring_failed` alert.  No manager
state is written. -/
def costMonitoringTask (err : Option String) (s : MgrState) :
    MgrState × List AlertEvent :=
  match err with
  | none =>
      (s,
       if monthlyCostThresholdCents < totalCostCents then
         [⟨"cost_threshold_warning",
           "Monthly cost approaching threshold: $" ++ formatCents totalCostCents⟩]
       else [])
  | some e => (s, [⟨"cost_monitoring_failed", e⟩])

/-- The `data` payload handed to `_send_alert`: an opaque structured map
(every payload built in the source is a JSON-serialisable dictionary). -/
def AlertData := List (String × String)

/-- One serialisation step of `json.dumps` over such a payload. -/
def jsonDumpsData (d : AlertData) : String :=
  "\x7b" ++ String.intercalate ", " (d.map (fun p => p.1 ++ ": " ++ p.2)) ++ "\x7d"

/-- The full alert record `_send_alert` constructs, plus the log/stdout
lines it emits. -/
structure AlertOutput where
  event : AlertEvent
  timestamp : String
  lines : List String
deriving DecidableEq, Repr

/-- `_send_alert`, with every step it performs made explicit: build
`alert_data`, `logger.warning`, and the sequence of `print` calls.  None of
these operations is fallible in the source (there is no external delivery
sink; `json.dumps` succeeds on every structured payload), so the function is
total. -/
def sendAlert (alertType message timestamp : String) (data : Option AlertData) :
    AlertOutput :=
  ⟨⟨alertType, message⟩, timestamp,
   ["ALERT: " ++ alertType ++ " - " ++ message,
    "ALERT: " ++ alertType,
    "Message: " ++ message,
    "Time: " ++ timestamp]
   ++ (match data with
       | some d => ["Data: " ++ jsonDumpsData d]
       | none => [])
   ++ ["--------------------------------------------------"]⟩

/-- `_send_alert` with exception propagation made explicit: each primitive
the body runs is threaded through `Except`, so that a raising step would
surface as `.error`.  Since every step is total, the claim is that this
always returns `.ok`. -/
def sendAlertExcept (alertType message timestamp : String)
    (data : Option AlertData) : Except String AlertOutput := do
  let logLine := "ALERT: " ++ alertType ++ " - " ++ message
  let headerLine := "ALERT: " ++ alertType
  let dataLines ← match data with
    | some d => Except.ok ["Data: " ++ jsonDumpsData d]
    | none => Except.ok ([] : List String)
  Except.ok
    ⟨⟨alertType, message⟩, timestamp,
     [logLine, headerLine, "Message: " ++ message, "Time: " ++ timestamp]
     ++ dataLines ++ ["--------------------------------------------------"]⟩

/-- The task-name → bound-method table in
`TaskManagerWebInterface.run_task`. -/
def webTaskNames : List String :=
  ["health_check", "database_cleanup", "backup_verification",
   "performance_analytics", "cost_monitoring"]

/-- An HTTP response of the web interface. -/
structure WebResponse where
  httpStatus : Nat
  body : String
deriving DecidableEq, Repr

/-- `TaskManagerWebInterface.run_task`: an unknown name is answered with a
400 client error and no task is executed; a known name's bound task
coroutine is awaited directly.  The endpoint consults no running-state:
`busyNow` is the set of jobs already in progress at call time, and the
result is independent of it.  The returned `Bool` records whether the task
body was executed (the five task bodies swallow their own exceptions, so
the await returns normally and the endpoint answers 200). -/
def runTaskEndpoint (taskName : String) (_busyNow : List String) :
    Bool × WebResponse :=
  if webTaskNames.contains taskName then
    (true, ⟨200, "Task " ++ taskName ++ " completed successfully"⟩)
  else
    (false, ⟨400, "Unknown task: " ++ taskName⟩)

/-- Dispatch/completion events that can interleave at run time: a trigger
firing inside APScheduler (`schedFire`), the web endpoint's direct call of
the task coroutine (`manualRun`), and the two corresponding completions. -/
inductive SchedEv where
  | schedFire (job : String)
  | manualRun (job : String)
  | schedDone (job : String)
  | manualDone (job : String)
deriving DecidableEq, Repr

/-- The run-time execution state: APScheduler's per-job executor instance
count (bounded by the configured `max_instances: 1`) and the number of
in-flight direct calls made by the web endpoint, which APScheduler never
sees. -/
structure SchedState where
  schedInstances : String → Nat
  manualActive : String → Nat

/-- Startup state: nothing running. -/
def schedInit : SchedState := ⟨fun _ => 0, fun _ => 0⟩

/-- One interleaving step.  `schedFire` goes through
`BaseExecutor.submit_job`, which refuses the submission (a logged
`MaxInstancesReachedError`) when the job already has `max_instances = 1`
instances; `manualRun` is `await task_methods[task_name]()` in `run_task`,
which performs no such check. -/
def schedStep (s : SchedState) : SchedEv → SchedState
  | .schedFire j =>
      if 1 ≤ s.schedInstances j then s
      else { s with schedInstances := fun j' =>
               if j' = j then s.schedInstances j' + 1 else s.schedInstances j' }
  | .manualRun j =>
      { s with manualActive := fun j' =>
          if j' = j then s.manualActive j' + 1 else s.manualActive j' }
  | .schedDone j =>
      { s with schedInstances := fun j' =>
          if j' = j then s.schedInstances j' - 1 else s.schedInstances j' }
  | .manualDone j =>
      { s with manualActive := fun j' =>
          if j' = j then s.manualActive j' - 1 else s.manualActive j' }

/-- Run an interleaving from startup. -/
def runSched (evs : List SchedEv) : SchedState :=
  evs.foldl schedStep schedInit

/-- Number of executions of job `j`'s body in `Running` state, whichever
path started them. -/
def runningInstances (s : SchedState) (j : String) : Nat :=
  s.schedInstances j + s.manualActive j

/-- `_run_health_check`'s staleness test, in seconds:
`not self.last_health_check or (now - last) > timedelta(minutes=10)`. -/
def healthCheckOverdue (now : Nat) (last : Option Nat) : Bool :=
  match last with
  | none => true
  | some t => decide (600 < now - t)

/-- One tick of the supervisory loop in `start`: every 60 s the loop calls
`_run_health_check`, which forces one direct invocation of
`_health_check_task` exactly when the staleness test fires.  Returns the new
state, the alerts sent, and the number of forced invocations this tick. -/
def superviseTick (now : Nat) (probe : ProbeResult) (s : MgrState) :
    MgrState × List AlertEvent × Nat :=
  if healthCheckOverdue now s.lastHealthCheck then
    ((healthCheckTask now probe s).1, (healthCheckTask now probe s).2, 1)
  else
    (s, [], 0)

/-- Every operation of `DanDataTaskManager` that executes a task body (via
a trigger firing, the web endpoint, or the supervisory loop — all three
paths run the same five methods). -/
inductive MgrOp where
  | healthCheck (now : Nat) (probe : ProbeResult)
  | dbCleanup (err : Option String)
  | backupVerification (err : Option String)
  | perfAnalytics (err : Option String)
  | costMonitoring (err : Option String)
  | supervise (now : Nat) (probe : ProbeResult)
deriving DecidableEq, Repr

/-- Apply one operation to the manager state. -/
def applyOp (s : MgrState) : MgrOp → MgrState × List AlertEvent
  | .healthCheck now probe => healthCheckTask now probe s
  | .dbCleanup err => databaseCleanupTask err s
  | .backupVerification err => backupVerificationTask err s
  | .perfAnalytics err => performanceAnalyticsTask err s
  | .costMonitoring err => costMonitoringTask err s
  | .supervise now probe =>
      ((superviseTick now probe s).1, (superviseTick now probe s).2.1)

/-- Apply a sequence of operations. -/
def applyOps (s : MgrState) : List MgrOp → MgrState
  | [] => s
  | op :: ops => applyOps (applyOp s op).1 ops

/-- `get_task_status()["active_tasks"]`: the number of entries of the
`tasks` dictionary in `RUNNING` state. -/
def getTaskStatusActive (s : MgrState) : Nat :=
  (s.tasks.filter (fun p => p.2.status == TaskStatus.running)).length

/-- `_health_check_task`'s alerts when its body raises `e` — and likewise
for the other four jobs, keyed by the scheduler job id registered in
`_setup_scheduled_tasks`.  This is the alert output of a run that terminates
`Failed` (its action raised). -/
def failedTaskRun (jobId : String) (now : Nat) (e : String) (s : MgrState) :
    List AlertEvent :=
  match jobId with
  | "health_check" => (healthCheckTask now (.exn e) s).2
  | "db_cleanup" => (databaseCleanupTask (some e) s).2
  | "backup_verify" => (backupVerificationTask (some e) s).2
  | "performance_analytics" => (performanceAnalyticsTask (some e) s).2
  | "cost_monitoring" => (costMonitoringTask (some e) s).2
  | _ => []

/-- The two APScheduler trigger kinds used in `_setup_scheduled_tasks`:
`IntervalTrigger(minutes=…)` and `CronTrigger` pinning hour/minute and
optionally day-of-week (APScheduler numbering: 0 = Monday). -/
inductive PyTrigger where
  | interval (minutes : Nat)
  | cron (dayOfWeek : Option Nat) (hour : Nat) (minute : Nat)
deriving DecidableEq, Repr

/-- The five `add_job` calls of `_setup_scheduled_tasks`, in source order:
`(id, name, trigger)`. -/
def registeredJobs : List (String × String × PyTrigger) :=
  [("health_check", "System Health Check", .interval 5),
   ("db_cleanup", "Database Cleanup", .cron none 2 0),
   ("backup_verify", "Backup Verification", .cron (some 6) 3 0),
   ("performance_analytics", "Performance Analytics", .cron none 1 0),
   ("cost_monitoring", "Cost Monitoring", .cron none 9 0)]

/-- The job ids in registration order. -/
def registrationOrderIds : List String := registeredJobs.map (fun j => j.1)

/-- Next fire time of a trigger, over a timeline of minutes since a Monday
00:00.  An interval trigger added with no previous fire time first fires one
period after it is added; a cron trigger fires at the first instant strictly
after `now` whose minute, hour and (when pinned) weekday all match. -/
def nextFireTime (t : PyTrigger) (now : Nat) : Nat :=
  match t with
  | .interval m => now + m
  | .cron none h mi =>
      let cand := (now / 1440) * 1440 + h * 60 + mi
      if now < cand then cand else cand + 1440
  | .cron (some d) h mi =>
      let base := now / 1440
      let cands := (List.range 8).filterMap (fun k =>
        let day := base + k
        let c := day * 1440 + h * 60 + mi
        if day % 7 = d ∧ now < c then some c else none)
      cands.headD 0

/-- `MemoryJobStore` insertion: the store keeps its job list sorted by next
run time (`bisect` on the timestamp), so each added job is inserted before
the first entry with a strictly later time. -/
def insertByTime (x : String × Nat) : List (String × Nat) → List (String × Nat)
  | [] => [x]
  | y :: ys => if x.2 < y.2 then x :: y :: ys else y :: insertByTime x ys

/-- The `MemoryJobStore` contents after `scheduler.start()` moves the five
pending jobs into the store at time `now`, each with its computed next run
time. -/
def storeAfterStart (now : Nat) : List (String × Nat) :=
  registeredJobs.foldl
    (fun acc j => insertByTime (j.1, nextFireTime j.2.2 now) acc) []

/-- `list_scheduled_jobs()` with the scheduler running: `get_jobs()` reads
the jobstore, so ids come back in next-run-time order. -/
def listScheduledJobsRunning (now : Nat) : List String :=
  (storeAfterStart now).map (fun p => p.1)

/-- `list_scheduled_jobs()` before `start()`: `get_jobs()` returns the
scheduler's pending list, in the order the `add_job` calls were made. -/
def listScheduledJobsStopped : List String := registrationOrderIds

/-- One `schedStep` preserves the per-job bound APScheduler's
`max_instances = 1` submission check maintains on scheduled instances. -/
theorem schedStep_instances_le_one (s : SchedState) (e : SchedEv)
    (h : ∀ j, s.schedInstances j ≤ 1) (j : String) :
    (schedStep s e).schedInstances j ≤ 1 := by
  cases e with
  | schedFire j0 =>
      show (if 1 ≤ s.schedInstances j0 then s
            else { s with schedInstances := fun j' =>
              if j' = j0 then s.schedInstances j' + 1
              else s.schedInstances j' }).schedInstances j ≤ 1
      by_cases hb : 1 ≤ s.schedInstances j0
      · rw [if_pos hb]
        exact h j
      · rw [if_neg hb]
        show (if j = j0 then s.schedInstances j + 1 else s.schedInstances j) ≤ 1
        by_cases hj : j = j0
        · rw [if_pos hj]
          subst hj
          omega
        · rw [if_neg hj]
          exact h j
  | manualRun j0 => exact h j
  | schedDone j0 =>
      show (if j = j0 then s.schedInstances j - 1 else s.schedInstances j) ≤ 1
      by_cases hj : j = j0
      · rw [if_pos hj]
        exact le_trans (Nat.sub_le _ _) (h j)
      · rw [if_neg hj]
        exact h j
  | manualDone j0 => exact h j

/-- The bound holds along every interleaving. -/
theorem runSched_instances_le_one_aux (evs : List SchedEv) (s : SchedState)
    (h : ∀ j, s.schedInstances j ≤ 1) (j : String) :
    (evs.foldl schedStep s).schedInstances j ≤ 1 := by
  induction evs generalizing s with
  | nil => exact h j
  | cons e es ih => exact ih (schedStep s e) (fun j' => schedStep_instances_le_one s e h j')

/-- C1 (amended): along every interleaving of trigger firings, web-endpoint
invocations and completions, at most one *scheduled* instance of each job is
running at a time — APScheduler's `max_instances = 1` check guards only the
scheduled path, while the web endpoint's direct coroutine call bypasses it,
so the original at-most-one-running claim fails (see the counterexample). -/
theorem c1_scheduled_runs_never_overlap (evs : List SchedEv) (j : String) :
    (runSched evs).schedInstances j ≤ 1 :=
  runSched_instances_le_one_aux evs schedInit (fun _ => Nat.zero_le 1) j

/-- C1 counterexample: a scheduled dispatch of `health_check` followed by a
concurrent manual `POST /run/health_check` leaves two runs of the same job
in Running state at once, refuting the at-most-one-running claim. -/
theorem c1_counterexample :
    runningInstances
        (runSched [.schedFire "health_check", .manualRun "health_check"])
        "health_check" = 2
    ∧ ¬ runningInstances
        (runSched [.schedFire "health_check", .manualRun "health_check"])
        "health_check" ≤ 1 := by
  constructor
  · decide
  · decide

/-- C2 (amended): a job run whose action raises `e` dispatches exactly one
failure alert whose message is the captured error; the alert type is
`<job>_failed` for four of the five jobs, but the `backup_verify` job's tag
is the hard-coded `backup_verification_failed`, not `backup_verify_failed`. -/
theorem c2_failed_run_alerts (now : Nat) (e : String) (s : MgrState) :
    failedTaskRun "health_check" now e s = [⟨"health_check_failed", e⟩]
    ∧ failedTaskRun "db_cleanup" now e s = [⟨"db_cleanup_failed", e⟩]
    ∧ failedTaskRun "backup_verify" now e s = [⟨"backup_verification_failed", e⟩]
    ∧ failedTaskRun "performance_analytics" now e s
        = [⟨"performance_analytics_failed", e⟩]
    ∧ failedTaskRun "cost_monitoring" now e s = [⟨"cost_monitoring_failed", e⟩] :=
  ⟨rfl, rfl, rfl, rfl, rfl⟩

/-- C2 counterexample: a failed run of the `backup_verify` job dispatches an
alert of type `backup_verification_failed`, not `<job>_failed` =
`backup_verify_failed` as the claim states. -/
theorem c2_counterexample :
    failedTaskRun "backup_verify" 0 "timeout" dmInit
      = [⟨"backup_verification_failed", "timeout"⟩]
    ∧ failedTaskRun "backup_verify" 0 "timeout" dmInit
      ≠ [⟨"backup_verify" ++ "_failed", "timeout"⟩] := by
  constructor
  · decide
  · decide

/-- C3 (amended): `run_task` answers an unregistered name with a 400 client
error without executing anything, but it performs no busy check at all: its
behaviour is independent of which jobs are already in progress, and a known
task is executed even while a run of it is in flight. -/
theorem c3_run_task_endpoint (name : String) (busy : List String) :
    runTaskEndpoint name busy = runTaskEndpoint name []
    ∧ (name ∉ webTaskNames →
        runTaskEndpoint name busy = (false, ⟨400, "Unknown task: " ++ name⟩))
    ∧ (name ∈ webTaskNames → (runTaskEndpoint name busy).1 = true) := by
  refine ⟨rfl, ?_, ?_⟩ <;> intro h <;> simp [runTaskEndpoint, h]

/-- C3 witness: the amended endpoint contract evaluated at an unknown name
and at a known-but-busy name. -/
theorem c3_run_task_endpoint_witness :
    runTaskEndpoint "nope" ["health_check"]
      = (false, ⟨400, "Unknown task: " ++ "nope"⟩)
    ∧ (runTaskEndpoint "health_check" ["health_check"]).1 = true :=
  ⟨(c3_run_task_endpoint "nope" ["health_check"]).2.1 (by decide),
   (c3_run_task_endpoint "health_check" ["health_check"]).2.2 (by simp [webTaskNames])⟩

/-- C3 counterexample: with a `health_check` run already in progress, a
manual `POST /run/health_check` still executes the task and answers 200,
instead of failing with a JobBusy client error without running it. -/
theorem c3_counterexample :
    (runTaskEndpoint "health_check" ["health_check"]).1 = true
    ∧ (runTaskEndpoint "health_check" ["health_check"]).2.httpStatus = 200 := by
  constructor
  · decide
  · decide

/-- C4: each supervisory tick forces exactly one direct health-check
invocation precisely when the staleness test fires (never-run, or last
successful completion more than 600 s ago); a forced run that fails leaves
the staleness clock untouched, so the monitor fires again on every later
stale tick, while a successful probe resets the clock to `now`, after which
ticks within the next 600 s force nothing. -/
theorem c4_health_monitor_staleness (now t d : Nat) (probe : ProbeResult)
    (hs : String) (tk : List (String × TaskResult)) (sf : Option String)
    (m : String) (c : Nat) :
    (superviseTick now probe ⟨none, hs, tk⟩).2.2 = 1
    ∧ (superviseTick now probe ⟨some t, hs, tk⟩).2.2
        = (if 600 < now - t then 1 else 0)
    ∧ (superviseTick now (.exn m) ⟨some t, hs, tk⟩).1.lastHealthCheck = some t
    ∧ (superviseTick now (.httpError c) ⟨some t, hs, tk⟩).1.lastHealthCheck = some t
    ∧ (superviseTick now (.ok sf) ⟨some t, hs, tk⟩).1.lastHealthCheck
        = (if 600 < now - t then some now else some t)
    ∧ (superviseTick (now + d) probe ⟨some now, hs, tk⟩).2.2
        = (if 600 < d then 1 else 0) := by
  have hd : now + d - now = d := by omega
  refine ⟨?_, ?_, ?_, ?_, ?_, ?_⟩
  · simp [superviseTick, healthCheckOverdue]
  · by_cases h : 600 < now - t <;>
      simp [superviseTick, healthCheckOverdue, h]
  · by_cases h : 600 < now - t <;>
      simp [superviseTick, healthCheckOverdue, healthCheckTask, h]
  · by_cases h : 600 < now - t <;>
      simp [superviseTick, healthCheckOverdue, healthCheckTask, h]
  · by_cases h : 600 < now - t <;>
      simp [superviseTick, healthCheckOverdue, healthCheckTask, h]
  · by_cases h : 600 < d <;>
      simp [superviseTick, healthCheckOverdue, hd, h]

/-- No operation of the manager writes the `tasks` dictionary. -/
theorem applyOp_tasks_eq (s : MgrState) (op : MgrOp) :
    ((applyOp s op).1).tasks = s.tasks := by
  cases op with
  | healthCheck now probe => cases probe <;> rfl
  | dbCleanup err => cases err <;> rfl
  | backupVerification err => cases err <;> rfl
  | perfAnalytics err => cases err <;> rfl
  | costMonitoring err => cases err <;> rfl
  | supervise now probe =>
      by_cases h : healthCheckOverdue now s.lastHealthCheck = true
      · cases probe <;> simp [applyOp, superviseTick, healthCheckTask, h]
      · simp [applyOp, superviseTick, h]

/-- Nor does any sequence of operations. -/
theorem applyOps_tasks_eq (ops : List MgrOp) (s : MgrState) :
    (applyOps s ops).tasks = s.tasks := by
  induction ops generalizing s with
  | nil => rfl
  | cons op ops ih => exact (ih (applyOp s op).1).trans (applyOp_tasks_eq s op)

/-- C5: the `tasks` outcome store is never written — no dispatch path
(scheduled trigger, web endpoint, supervisory loop) creates or records a
run in it — so `get_task_status()["active_tasks"]` is 0 after any sequence
of dispatches, even while runs are executing. -/
theorem c5_tasks_store_never_written (ops : List MgrOp) (s : MgrState) :
    (applyOps s ops).tasks = s.tasks
    ∧ getTaskStatusActive (applyOps dmInit ops) = 0 := by
  refine ⟨applyOps_tasks_eq ops s, ?_⟩
  unfold getTaskStatusActive
  rw [applyOps_tasks_eq ops dmInit]
  rfl

/-- C6: `_send_alert` returns normally on every input — every step of its
body is infallible, so with exception propagation made explicit the result
is always `ok` — and the dispatched event carries exactly the given type
and message; no alert outcome can mark a job failed or stop the tick loop. -/
theorem c6_send_alert_never_throws (alertType message timestamp : String)
    (data : Option AlertData) :
    sendAlertExcept alertType message timestamp data
      = Except.ok (sendAlert alertType message timestamp data)
    ∧ (sendAlert alertType message timestamp data).event = ⟨alertType, message⟩ := by
  cases data <;> exact ⟨rfl, rfl⟩

/-- Inserting into the time-sorted store only permutes the job ids. -/
theorem insertByTime_fst_perm (x : String × Nat) (l : List (String × Nat)) :
    List.Perm ((insertByTime x l).map Prod.fst) (x.1 :: l.map Prod.fst) := by
  induction l with
  | nil => simp [insertByTime]
  | cons y ys ih =>
      by_cases h : x.2 < y.2
      · simp [insertByTime, h]
      · simp only [insertByTime, if_neg h, List.map_cons]
        exact (ih.cons y.1).trans (List.Perm.swap x.1 y.1 (ys.map Prod.fst))

/-- Folding insertions into the store yields a permutation of the inserted
ids (in front of whatever was already there). -/
theorem foldl_insertByTime_fst_perm
    (key : String × String × PyTrigger → String × Nat)
    (jobs : List (String × String × PyTrigger)) (acc : List (String × Nat)) :
    List.Perm
      ((jobs.foldl (fun a j => insertByTime (key j) a) acc).map Prod.fst)
      (jobs.map (fun j => (key j).1) ++ acc.map Prod.fst) := by
  induction jobs generalizing acc with
  | nil => simp
  | cons j js ih =>
      simp only [List.foldl_cons, List.map_cons, List.cons_append]
      exact (ih (insertByTime (key j) acc)).trans
        ((List.Perm.append_left (js.map fun j' => (key j').1)
            (insertByTime_fst_perm (key j) acc)).trans List.perm_middle)

/-- C7 (amended): before `start()` the pending list is reported in
registration order, and once the scheduler is running `list_scheduled_jobs`
still reports exactly the five registered jobs, but in the jobstore's
next-run-time order — a permutation of registration order that depends on
the clock, so the fixed registration order is not guaranteed while running
(see the counterexample). -/
theorem c7_list_jobs_order :
    listScheduledJobsStopped = registrationOrderIds
    ∧ ∀ now, List.Perm (listScheduledJobsRunning now) registrationOrderIds := by
  refine ⟨rfl, fun now => ?_⟩
  have h := foldl_insertByTime_fst_perm
    (fun j => (j.1, nextFireTime j.2.2 now)) registeredJobs []
  simpa [listScheduledJobsRunning, storeAfterStart, registrationOrderIds] using h

/-- C7 counterexample: with the scheduler started at minute 1650 of the
week (a Tuesday 03:30), `list_scheduled_jobs` reports the jobs sorted by
next run time, which differs from registration order. -/
theorem c7_counterexample :
    listScheduledJobsRunning 1650
      = ["health_check", "cost_monitoring", "performance_analytics",
         "db_cleanup", "backup_verify"]
    ∧ listScheduledJobsRunning 1650 ≠ registrationOrderIds := by
  constructor
  · decide
  · decide

/-- C8: every successful run of the performance analytics task dispatches
exactly one `performance_degradation` alert with message
`API response times degraded`, because the 95th-percentile check is a
lexicographic comparison of the hard-coded strings (`"450ms" > "1000ms"`
holds) while the error-rate check (0.2 > 1.0) does not fire. -/
theorem c8_performance_degradation_always (s : MgrState) :
    (performanceAnalyticsTask none s).2
      = [⟨"performance_degradation", "API response times degraded"⟩]
    ∧ pyStrGt apiMetrics95th "1000ms" = true
    ∧ decGtOne (rstripPercent apiMetricsErrorRate) = false :=
  ⟨rfl, rfl, rfl⟩

/-- C9: every successful run of the cost monitoring task dispatches exactly
one `cost_threshold_warning` alert, because the hard-coded estimated costs
sum to $23.75, above the fixed $20 threshold. -/
theorem c9_cost_threshold_always (s : MgrState) :
    (costMonitoringTask none s).2
      = [⟨"cost_threshold_warning", "Monthly cost approaching threshold: $23.75"⟩]
    ∧ totalCostCents = 2375
    ∧ monthlyCostThresholdCents < totalCostCents :=
  ⟨rfl, rfl, by decide⟩

/-- C10: a failing probe (non-200 response or raised exception) sets
`health_status` to `unhealthy` but leaves `last_health_check` unchanged;
only an HTTP-200 probe sets `last_health_check = now`, so only a successful
probe resets the Health Monitor's staleness clock. -/
theorem c10_last_health_check_frame (now : Nat) (s : MgrState) (m : String)
    (c : Nat) (sf : Option String) :
    (healthCheckTask now (.exn m) s).1.lastHealthCheck = s.lastHealthCheck
    ∧ (healthCheckTask now (.exn m) s).1.healthStatus = "unhealthy"
    ∧ (healthCheckTask now (.httpError c) s).1.lastHealthCheck = s.lastHealthCheck
    ∧ (healthCheckTask now (.httpError c) s).1.healthStatus = "unhealthy"
    ∧ (healthCheckTask now (.ok sf) s).1.lastHealthCheck = some now :=
  ⟨rfl, rfl, rfl, rfl, rfl⟩

end DanData
